import Mathlib

/-!
Verification of the AI-Trader OAuth and quote layer.

Shallow embedding of the Python sources:

* `src/agent_tools/schwab_client.py` (`SchwabAPIClient`)
* `src/agent_tools/tool_get_price_schwab.py`
* `src/schwab_oauth.py`
* `src/refresh_token.py`

HTTP exchanges are modelled by passing the server's responses explicitly:
a fetch receives `server : Nat → HttpResponse`, the sequence of responses
the stub server would give to the successive requests of that one call.
The outcome records the requests actually sent (URL, bearer token, query
params) and how many times `refresh_access_token` was invoked, so the
retry contract can be stated exactly.  JSON response bodies in this code
are always JSON objects; they are modelled as association lists over a
small JSON value type `JVal`.
-/

/-- A JSON value, as far as this codebase inspects one: strings, numbers
(the numeric tower is irrelevant here, no arithmetic is ever performed on
a field), and objects. -/
inductive JVal where
  | str : String → JVal
  | num : Int → JVal
  | obj : List (String × JVal) → JVal
deriving Repr

/-- Python `d.get(k, default)` on a JSON object. -/
def dictGet (d : List (String × JVal)) (k : String) (default : JVal) : JVal :=
  (d.lookup k).getD default

/-- An HTTP response as the code observes it: `response.status_code` and
`response.json()` (always an object for these endpoints). -/
structure HttpResponse where
  status : Nat
  body : List (String × JVal)

/-- One HTTP GET actually issued: the URL, the bearer token carried in the
`Authorization` header built by `_get_headers`, and the `params` mapping
passed to `requests.get` (empty when no `params=` argument is given). -/
structure SentRequest where
  url : String
  bearer : String
  params : List (String × String)
deriving Repr

/-- Result of `SchwabAPIClient.get_quote`: either a normal Python return
value (`Some payload` or `None`), or the uncaught `NameError` raised by
the retry line `requests.get(url, headers=..., params=params)`, where
`params` is an undefined variable in `get_quote`'s scope.  `NameError` is
not a `requests.exceptions.RequestException`, so the surrounding
`try/except` does not catch it. -/
inductive QuoteResult where
  | ret : Option JVal → QuoteResult
  | nameError : QuoteResult
deriving Repr

/-- The observable outcome of one authenticated fetch: its return value,
the GET requests actually sent (in order), and the number of calls made to
`refresh_access_token`. -/
structure FetchOutcome (α : Type) where
  result : α
  sent : List SentRequest
  refreshes : Nat

/-- Value of `self.base_url` of `SchwabAPIClient`. -/
def base_url : String := "https://api.schwabapi.com"

/-- Python `str.upper` restricted to one character.  Stock symbols and the
strings this code uppercases are ASCII, on which Python's `str.upper`
agrees with `Char.toUpper`. -/
def pyUpperChar (c : Char) : Char := c.toUpper

/-- Python `str.upper` (ASCII). -/
def pyUpper (s : String) : String := ⟨s.data.map pyUpperChar⟩

/-- Embedding of `SchwabAPIClient.get_quote(symbol)` (schwab_client.py lines 81–109).

The first GET goes to `quotes?symbols=<symbol.upper()>` with the current
access token `tok0`.  On a 401, `refresh_access_token` is called; its
outcome is abstracted as `refreshResult` (`some newTok` when it returns
`True` having stored the new access token, `none` when it returns
`False`).  On a failed refresh the function returns `None`.  On a
successful refresh the retry line evaluates the undefined name `params`
and raises `NameError` before any second request is sent.  Otherwise
`raise_for_status` (raises exactly when `status >= 400`, caught by the
`except` giving `None`), then `data = response.json()` and
`data[symbol]` is returned if `symbol in data` — the lookup uses the
ORIGINAL `symbol`, not `symbol.upper()`. -/
def get_quote (server : Nat → HttpResponse) (tok0 : String)
    (refreshResult : Option String) (symbol : String) : FetchOutcome QuoteResult :=
  let url := base_url ++ "/marketdata/v1/quotes?symbols=" ++ pyUpper symbol
  let r1 := server 0
  let req1 : SentRequest := ⟨url, tok0, []⟩
  if r1.status = 401 then
    match refreshResult with
    | some _ => ⟨QuoteResult.nameError, [req1], 1⟩
    | none => ⟨QuoteResult.ret none, [req1], 1⟩
  else if 400 ≤ r1.status then ⟨QuoteResult.ret none, [req1], 0⟩
  else ⟨QuoteResult.ret (r1.body.lookup symbol), [req1], 0⟩

/-- Embedding of `SchwabAPIClient.get_quotes_bulk(symbols)` (schwab_client.py lines
111–131).  Joins the uppercased symbols with commas into the URL; on 401
refreshes once and, if the refresh succeeded, re-issues the same GET with
the new token; a failed refresh returns `{}`; `raise_for_status` on the
final response is caught by the `except`, returning `{}`; otherwise the
parsed JSON object is returned. -/
def get_quotes_bulk (server : Nat → HttpResponse) (tok0 : String)
    (refreshResult : Option String) (symbols : List String) :
    FetchOutcome (List (String × JVal)) :=
  let url := base_url ++ "/marketdata/v1/quotes?symbols=" ++
    String.intercalate "," (symbols.map pyUpper)
  let r1 := server 0
  let req1 : SentRequest := ⟨url, tok0, []⟩
  if r1.status = 401 then
    match refreshResult with
    | none => ⟨[], [req1], 1⟩
    | some t =>
      let r2 := server 1
      let req2 : SentRequest := ⟨url, t, []⟩
      if 400 ≤ r2.status then ⟨[], [req1, req2], 1⟩
      else ⟨r2.body, [req1, req2], 1⟩
  else if 400 ≤ r1.status then ⟨[], [req1], 0⟩
  else ⟨r1.body, [req1], 0⟩

/-- Embedding of `SchwabAPIClient.get_price_history(symbol, ...)` (schwab_client.py
lines 133–170).  The query parameters are passed as `params=` on both the
first attempt and (after a successful refresh of a 401) the single retry,
which carries the new access token.  A failed refresh returns `None`;
`raise_for_status` failures are caught, returning `None`; otherwise the
parsed JSON object is returned. -/
def get_price_history (server : Nat → HttpResponse) (tok0 : String)
    (refreshResult : Option String) (symbol : String)
    (period_type : String := "day") (period : Nat := 1)
    (frequency_type : String := "minute") (frequency : Nat := 1) :
    FetchOutcome (Option (List (String × JVal))) :=
  let url := base_url ++ "/marketdata/v1/pricehistory"
  let params := [("symbol", symbol), ("periodType", period_type),
    ("period", toString period), ("frequencyType", frequency_type),
    ("frequency", toString frequency)]
  let r1 := server 0
  let req1 : SentRequest := ⟨url, tok0, params⟩
  if r1.status = 401 then
    match refreshResult with
    | none => ⟨none, [req1], 1⟩
    | some t =>
      let r2 := server 1
      let req2 : SentRequest := ⟨url, t, params⟩
      if 400 ≤ r2.status then ⟨none, [req1, req2], 1⟩
      else ⟨some r2.body, [req1, req2], 1⟩
  else if 400 ≤ r1.status then ⟨none, [req1], 0⟩
  else ⟨some r1.body, [req1], 0⟩

example :
    (get_quote (fun _ => ⟨200, [("AAPL", JVal.num 1)]⟩) "t" none "AAPL").result =
      QuoteResult.ret (some (JVal.num 1)) := rfl

example :
    (get_quote (fun _ => ⟨401, []⟩) "t" (some "t2") "AAPL").result =
      QuoteResult.nameError := rfl

/-- Python truthiness of the values held in `SchwabAPIClient` token slots:
`None`, `""`, `0` and `{}` are falsy. -/
def jfalsy : Option JVal → Bool
  | none => true
  | some (JVal.str s) => s.isEmpty
  | some (JVal.num n) => n == 0
  | some (JVal.obj l) => l.isEmpty

/-- The mutable token state of a `SchwabAPIClient` instance
(schwab_client.py `__init__`): the token slots hold whatever
`os.getenv` / `token_data.get` last stored there, hence `Option JVal`. -/
structure ClientState where
  client_id : String
  client_secret : String
  access_token : Option JVal
  refresh_token : Option JVal
deriving Repr

/-- Embedding of `SchwabAPIClient.refresh_access_token()` (schwab_client.py lines
44–79), as a state transition on the client given the token endpoint's
response.  `if not self.refresh_token: return False`; then the POST is
sent and `raise_for_status` raises for `status >= 400`, caught by the
`except` returning `False`; otherwise
`self.access_token = token_data.get("access_token")` (which stores `None`
when the field is absent), the refresh token is replaced only
`if "refresh_token" in token_data`, and the function returns `True`. -/
def refresh_access_token (st : ClientState) (resp : HttpResponse) :
    Bool × ClientState :=
  if jfalsy st.refresh_token then (false, st)
  else if 400 ≤ resp.status then (false, st)
  else
    let st1 := { st with access_token := resp.body.lookup "access_token" }
    let st2 :=
      match resp.body.lookup "refresh_token" with
      | some rt => { st1 with refresh_token := some rt }
      | none => st1
    (true, st2)

/-- An outgoing HTTP POST as the scripts construct one: URL, header
mapping, and the form fields of the `data=` body. -/
structure HttpPostRequest where
  url : String
  headers : List (String × String)
  bodyFields : List (String × String)
deriving Repr

/-- The base64 alphabet of RFC 4648 §4, the encoding implemented by
Python's `base64.b64encode`. -/
def b64Alphabet : List Char :=
  "ABCDEFGHIJKLMNOPQRSTUVWXYZabcdefghijklmnopqrstuvwxyz0123456789+/".data

/-- The base64 digit for a 6-bit group. -/
def b64Char (n : Nat) : Char := b64Alphabet.getD n 'A'

/-- RFC 4648 base64 encoding of a byte sequence (with `=` padding),
modelling Python's `base64.b64encode`. -/
def base64Encode : List Nat → String
  | [] => ""
  | [a] =>
    String.mk [b64Char (a / 4), b64Char (a % 4 * 16)] ++ "=="
  | [a, b] =>
    String.mk [b64Char (a / 4), b64Char (a % 4 * 16 + b / 16),
      b64Char (b % 16 * 4)] ++ "="
  | a :: b :: c :: rest =>
    String.mk [b64Char (a / 4), b64Char (a % 4 * 16 + b / 16),
      b64Char (b % 16 * 4 + c / 64), b64Char (c % 64)] ++ base64Encode rest

/-- Standard UTF-8 encoding of one Unicode code point, as a byte list
(the encoding performed by Python's `str.encode()`). -/
def utf8EncodeCharNat (n : Nat) : List Nat :=
  if n < 0x80 then [n]
  else if n < 0x800 then [0xC0 + n / 64, 0x80 + n % 64]
  else if n < 0x10000 then [0xE0 + n / 4096, 0x80 + n / 64 % 64, 0x80 + n % 64]
  else [0xF0 + n / 262144, 0x80 + n / 4096 % 64, 0x80 + n / 64 % 64, 0x80 + n % 64]

/-- Model of `base64.b64encode(s.encode()).decode()`: base64 of the UTF-8 bytes of
a string. -/
def pyB64OfString (s : String) : String :=
  base64Encode (s.data.map (fun c => utf8EncodeCharNat c.toNat)).flatten

example : pyB64OfString "id:secret" = "aWQ6c2VjcmV0" := by decide

/-- The POST built by `SchwabAPIClient.refresh_access_token`
(schwab_client.py lines 50–64): the form body carries `grant_type`,
`refresh_token`, `client_id` and `client_secret`; the only header is the
`Content-Type` — there is no `Authorization` header. -/
def client_refresh_request (client_id client_secret rt : String) :
    HttpPostRequest :=
  ⟨base_url ++ "/v1/oauth/token",
   [("Content-Type", "application/x-www-form-urlencoded")],
   [("grant_type", "refresh_token"), ("refresh_token", rt),
    ("client_id", client_id), ("client_secret", client_secret)]⟩

/-- The POST built by the standalone script `refresh_token.py` (lines
26–49): HTTP Basic authentication with the base64 of
`f"{CLIENT_ID}:{CLIENT_SECRET}"`, and a form body carrying only
`grant_type` and `refresh_token`. -/
def script_refresh_request (client_id client_secret rt : String) :
    HttpPostRequest :=
  ⟨"https://api.schwabapi.com/v1/oauth/token",
   [("Authorization", "Basic " ++ pyB64OfString (client_id ++ ":" ++ client_secret)),
    ("Content-Type", "application/x-www-form-urlencoded")],
   [("grant_type", "refresh_token"), ("refresh_token", rt)]⟩

/-- What `refresh_token.py` (line 61 and lines 76–78) stores as the new
refresh token after a 200 response: `tokens.get('refresh_token',
REFRESH_TOKEN)` — the response's value if present, otherwise the prior
refresh token unchanged. -/
def script_new_refresh_token (tokens : List (String × JVal))
    (priorRefresh : String) : JVal :=
  (tokens.lookup "refresh_token").getD (JVal.str priorRefresh)

/-- Result of `exchange_code_for_tokens` (schwab_oauth.py lines 46–94) on
the token endpoint's response.  `raise_for_status` failures
(`status >= 400`) are caught by the `except
requests.exceptions.RequestException` branch, which prints the error and
returns `None`.  On a 2xx the code immediately evaluates
`tokens['access_token']` and `tokens['refresh_token']`; a missing key
raises `KeyError`, which that `except` clause does NOT catch, so it
propagates out of the function uncaught. -/
inductive ExchangeResult where
  | ok : List (String × JVal) → ExchangeResult
  | requestError : ExchangeResult
  | keyError : String → ExchangeResult
deriving Repr

/-- Embedding of `exchange_code_for_tokens` (schwab_oauth.py lines 46–94), modelled
from the point the token endpoint's response is received (the request
construction and the interactive `.env`-update prompt do not affect the
returned value). -/
def exchange_code_for_tokens (resp : HttpResponse) : ExchangeResult :=
  if 400 ≤ resp.status then ExchangeResult.requestError
  else
    match resp.body.lookup "access_token" with
    | none => ExchangeResult.keyError "access_token"
    | some _ =>
      match resp.body.lookup "refresh_token" with
      | none => ExchangeResult.keyError "refresh_token"
      | some _ => ExchangeResult.ok resp.body

/-- Embedding of `update_env_file(access_token, refresh_token)` (schwab_oauth.py lines
96–112) on the file's lines as read by `readlines()` (each line keeps its
trailing newline).  Lines starting with `SCHWAB_ACCESS_TOKEN=` are
rewritten with the new access token, otherwise lines starting with
`SCHWAB_REFRESH_TOKEN=` are rewritten with the new refresh token, and
every other line is written back verbatim, in order.  The loop in
`refresh_token.py` lines 72–80 is this same rewrite with
`refresh_token := tokens.get('refresh_token', REFRESH_TOKEN)`. -/
def update_env_file (access_token refresh_token : String)
    (lines : List String) : List String :=
  lines.map fun line =>
    if line.startsWith "SCHWAB_ACCESS_TOKEN=" then
      "SCHWAB_ACCESS_TOKEN=" ++ access_token ++ "\n"
    else if line.startsWith "SCHWAB_REFRESH_TOKEN=" then
      "SCHWAB_REFRESH_TOKEN=" ++ refresh_token ++ "\n"
    else line

/-- Embedding of `SchwabAPIClient.format_quote_for_trading(quote_data)`
(schwab_client.py lines 172–191).  `if not quote_data or "quote" not in
quote_data: return {}`; then `quote = quote_data["quote"]` and the result
dict is built with `quote.get(...)` defaults.  When the `"quote"` value is
not a dict, `quote.get` raises `AttributeError`, modelled as `.error`. -/
def format_quote_for_trading (quote_data : List (String × JVal)) :
    Except String (List (String × JVal)) :=
  if quote_data.isEmpty || (quote_data.lookup "quote").isNone then
    Except.ok []
  else
    match quote_data.lookup "quote" with
    | some (JVal.obj quote) =>
      Except.ok
        [("buy_price", dictGet quote "askPrice" (dictGet quote "lastPrice" (JVal.num 0))),
         ("sell_price", dictGet quote "bidPrice" (dictGet quote "lastPrice" (JVal.num 0))),
         ("last_price", dictGet quote "lastPrice" (JVal.num 0)),
         ("high", dictGet quote "highPrice" (JVal.num 0)),
         ("low", dictGet quote "lowPrice" (JVal.num 0)),
         ("volume", dictGet quote "totalVolume" (JVal.num 0)),
         ("timestamp", dictGet quote "quoteTime" (JVal.num 0))]
    | _ => Except.error "AttributeError"

/-- The per-symbol loop of `get_multiple_prices`
(tool_get_price_schwab.py lines 96–104): for each requested symbol, if
`symbol in quotes` the code calls
`format_quote_for_trading({symbol: quotes[symbol]})` — note the wrapper
dict keyed by the symbol — and inserts `<symbol>_price`, `<symbol>_bid`
and `<symbol>_ask` from the formatted dict's `last_price`, `sell_price`
and `buy_price` with default `0`; otherwise it inserts
`result[symbol] = {"error": "No data available"}`. -/
def build_price_entries (quotes : List (String × JVal)) :
    List String → Except String (List (String × JVal))
  | [] => Except.ok []
  | symbol :: rest =>
    match quotes.lookup symbol with
    | some q =>
      match format_quote_for_trading [(symbol, q)] with
      | Except.error e => Except.error e
      | Except.ok formatted =>
        match build_price_entries quotes rest with
        | Except.error e => Except.error e
        | Except.ok tail =>
          Except.ok
            ((symbol ++ "_price", dictGet formatted "last_price" (JVal.num 0)) ::
             (symbol ++ "_bid", dictGet formatted "sell_price" (JVal.num 0)) ::
             (symbol ++ "_ask", dictGet formatted "buy_price" (JVal.num 0)) :: tail)
    | none =>
      match build_price_entries quotes rest with
      | Except.error e => Except.error e
      | Except.ok tail =>
        Except.ok ((symbol, JVal.obj [("error", JVal.str "No data available")]) :: tail)

/-- Embedding of `get_multiple_prices(symbols)` (tool_get_price_schwab.py lines
76–109) after the comma-split/strip of its input and the
`get_quotes_bulk` call, whose parsed response object is passed in as
`quotes` (a failed bulk fetch passes `{}`).  The whole body runs under
`try/except Exception`, so any exception raised inside the loop is
caught and turned into `{"error": f"Failed to fetch prices: {e}"}` —
the function itself never throws. -/
def get_multiple_prices (symbol_list : List String)
    (quotes : List (String × JVal)) : List (String × JVal) :=
  match build_price_entries quotes symbol_list with
  | Except.ok r => r
  | Except.error e => [("error", JVal.str ("Failed to fetch prices: " ++ e))]

/-- The dict returned by `get_market_status` (tool_get_price_schwab.py
lines 112–140), as a function of the components of `datetime.now()` it
reads: `weekday()` (Monday = 0), `hour` and `minute`. -/
structure MarketStatus where
  is_open : Bool
  market_session : String
deriving Repr

/-- Embedding of `get_market_status()` (tool_get_price_schwab.py lines 112–140):
`is_weekday = now.weekday() < 5`; `is_market_hours = is_weekday and
((hour == 9 and minute >= 30) or (9 < hour < 16) or (hour == 16 and
minute == 0))`; `market_session` is `"regular_hours"` when
`is_market_hours` else `"closed"`. -/
def get_market_status (weekday hour minute : Nat) : MarketStatus :=
  let is_weekday : Bool := decide (weekday < 5)
  let is_market_hours : Bool :=
    is_weekday &&
      ((hour == 9 && decide (30 ≤ minute)) ||
       (decide (9 < hour) && decide (hour < 16)) ||
       (hour == 16 && minute == 0))
  ⟨is_market_hours, if is_market_hours then "regular_hours" else "closed"⟩

example : (get_market_status 0 9 30).is_open = true := rfl

example : (get_market_status 0 16 1).is_open = false := rfl

example :
    get_multiple_prices ["AAPL"]
      [("AAPL", JVal.obj [("quote", JVal.obj [("lastPrice", JVal.num 123)])])] =
      [("AAPL_price", JVal.num 0), ("AAPL_bid", JVal.num 0),
       ("AAPL_ask", JVal.num 0)] := rfl

/-! ## Helper lemmas -/

/-- If mapping `f` over a list leaves it unchanged, `f` fixes every
element of the list. -/
theorem map_fixes_of_map_eq_self {α : Type} {f : α → α} :
    ∀ {l : List α}, l.map f = l → ∀ x ∈ l, f x = x := by
  intro l
  induction l with
  | nil => intro _ x hx; cases hx
  | cons a l ih =>
    intro h x hx
    rw [List.map_cons, List.cons.injEq] at h
    rcases List.mem_cons.mp hx with hx | hx
    · subst hx; exact h.1
    · exact ih h.2 x hx

/-- An ASCII lowercase letter is changed by `Char.toUpper`. -/
theorem pyUpperChar_ne_of_isLower (c : Char) (h : c.isLower = true) :
    pyUpperChar c ≠ c := by
  have hn : 97 ≤ c.toNat ∧ c.toNat ≤ 122 := by
    simp only [Char.isLower, Bool.and_eq_true, decide_eq_true_eq] at h
    obtain ⟨h1, h2⟩ := h
    have h1' : (97 : UInt32).toNat ≤ c.val.toNat := h1
    have h2' : c.val.toNat ≤ (122 : UInt32).toNat := h2
    exact ⟨h1', h2'⟩
  have hvalid : (c.toNat - 32).isValidChar := Or.inl (by omega)
  have hval : (Char.ofNat (c.toNat - 32)).toNat = c.toNat - 32 := by
    unfold Char.ofNat
    rw [dif_pos hvalid]
    rfl
  unfold pyUpperChar Char.toUpper
  rw [if_pos ⟨hn.1, hn.2⟩]
  intro heq
  have := congrArg Char.toNat heq
  rw [hval] at this
  omega

/-- A string containing an ASCII lowercase letter is changed by Python's
`str.upper`. -/
theorem pyUpper_ne_of_has_lower (s : String)
    (h : ∃ c ∈ s.data, c.isLower = true) : pyUpper s ≠ s := by
  obtain ⟨c, hc, hl⟩ := h
  intro heq
  have hdata : s.data.map pyUpperChar = s.data := congrArg String.data heq
  exact pyUpperChar_ne_of_isLower c hl (map_fixes_of_map_eq_self hdata c hc)

/-! ## Claims -/

/-- Claim C1 (code bug).  The claim says a 401 answered by a successful
refresh leads to exactly one retry with the new token, returning the 2xx
payload.  `get_price_history` does exactly that, but `get_quote`'s retry
line reads the undefined variable `params` and raises an uncaught
`NameError` after the refresh, without ever re-issuing the request: at a
server that answers 401 then 200-with-data, `get_quote` crashes with one
request sent and one refresh performed, while `get_price_history` at the
same server retries once with the new token and returns the payload. -/
theorem c1_get_quote_retry_crashes :
    (get_quote
        (fun n => if n = 0 then ⟨401, []⟩
          else ⟨200, [("AAPL", JVal.obj [("quote", JVal.obj [("lastPrice", JVal.num 123)])])]⟩)
        "tok0" (some "newtok") "AAPL") =
      ⟨QuoteResult.nameError,
       [⟨base_url ++ "/marketdata/v1/quotes?symbols=" ++ pyUpper "AAPL", "tok0", []⟩], 1⟩ ∧
    (get_price_history
        (fun n => if n = 0 then ⟨401, []⟩
          else ⟨200, [("candles", JVal.obj [("close", JVal.num 42)])]⟩)
        "tok0" (some "newtok") "AAPL" "day" 1 "minute" 1) =
      ⟨some [("candles", JVal.obj [("close", JVal.num 42)])],
       [⟨base_url ++ "/marketdata/v1/pricehistory", "tok0",
         [("symbol", "AAPL"), ("periodType", "day"), ("period", "1"),
          ("frequencyType", "minute"), ("frequency", "1")]⟩,
        ⟨base_url ++ "/marketdata/v1/pricehistory", "newtok",
         [("symbol", "AAPL"), ("periodType", "day"), ("period", "1"),
          ("frequencyType", "minute"), ("frequency", "1")]⟩], 1⟩ :=
  ⟨rfl, rfl⟩

/-- Claim C2 (counterexample).  The claim — the refresh operation uses an
HTTP Basic header and never passes the client credentials as body form
fields — is false for `SchwabAPIClient.refresh_access_token`: the request
it builds carries `client_id` and `client_secret` in the form body and
has no `Authorization` header at all. -/
theorem c2_client_refresh_sends_creds_in_body :
    (client_refresh_request "id" "secret" "rt").bodyFields.lookup "client_id" =
      some "id" ∧
    (client_refresh_request "id" "secret" "rt").bodyFields.lookup "client_secret" =
      some "secret" ∧
    (client_refresh_request "id" "secret" "rt").headers.lookup "Authorization" =
      none :=
  ⟨rfl, rfl, rfl⟩

/-- Claim C2 (amended).  The standalone refresh script (`refresh_token.py`)
transmits the client credentials as an HTTP Basic authentication header
(base64 of `client_id:client_secret`) and does not place them in the form
body; `SchwabAPIClient.refresh_access_token`, by contrast, passes
`client_id` and `client_secret` as request-body form fields and sends no
`Authorization` header. -/
theorem c2_refresh_credential_schemes (cid sec rt : String) :
    (script_refresh_request cid sec rt).headers.lookup "Authorization" =
      some ("Basic " ++ pyB64OfString (cid ++ ":" ++ sec)) ∧
    (script_refresh_request cid sec rt).bodyFields.lookup "client_id" = none ∧
    (script_refresh_request cid sec rt).bodyFields.lookup "client_secret" = none ∧
    (client_refresh_request cid sec rt).bodyFields.lookup "client_id" = some cid ∧
    (client_refresh_request cid sec rt).bodyFields.lookup "client_secret" = some sec ∧
    (client_refresh_request cid sec rt).headers.lookup "Authorization" = none :=
  ⟨rfl, rfl, rfl, rfl, rfl, rfl⟩

/-- Claim C3 (confirmed).  Every authenticated fetch sends at most two
requests and calls refresh at most once; when the first response is 401
and the refresh fails, each fetch fails immediately having sent only the
one original request; and when the first response is 401, the refresh
succeeds, and the retried request comes back with an error status
(including a second 401), the bulk-quote and price-history fetches fail
after exactly two requests and one refresh, with no third attempt.
(`get_quote` in that last scenario crashes with `NameError` before even
the second request, so its bounds hold a fortiori.) -/
theorem c3_single_refresh_single_retry (server : Nat → HttpResponse)
    (tok0 : String) (rtok : Option String) (sym pt ft : String)
    (p f : Nat) (syms : List String) :
    ((get_quote server tok0 rtok sym).sent.length ≤ 2 ∧
     (get_quote server tok0 rtok sym).refreshes ≤ 1) ∧
    ((get_quotes_bulk server tok0 rtok syms).sent.length ≤ 2 ∧
     (get_quotes_bulk server tok0 rtok syms).refreshes ≤ 1) ∧
    ((get_price_history server tok0 rtok sym pt p ft f).sent.length ≤ 2 ∧
     (get_price_history server tok0 rtok sym pt p ft f).refreshes ≤ 1) ∧
    ((server 0).status = 401 → rtok = none →
      (get_quote server tok0 rtok sym).result = QuoteResult.ret none ∧
      (get_quote server tok0 rtok sym).sent.length = 1 ∧
      (get_quotes_bulk server tok0 rtok syms).result = [] ∧
      (get_quotes_bulk server tok0 rtok syms).sent.length = 1 ∧
      (get_price_history server tok0 rtok sym pt p ft f).result = none ∧
      (get_price_history server tok0 rtok sym pt p ft f).sent.length = 1) ∧
    (∀ t, (server 0).status = 401 → rtok = some t →
      400 ≤ (server 1).status →
      (get_quotes_bulk server tok0 rtok syms).result = [] ∧
      (get_quotes_bulk server tok0 rtok syms).sent.length = 2 ∧
      (get_quotes_bulk server tok0 rtok syms).refreshes = 1 ∧
      (get_price_history server tok0 rtok sym pt p ft f).result = none ∧
      (get_price_history server tok0 rtok sym pt p ft f).sent.length = 2 ∧
      (get_price_history server tok0 rtok sym pt p ft f).refreshes = 1) := by
  unfold get_quote get_quotes_bulk get_price_history
  by_cases h1 : (server 0).status = 401 <;>
    rcases rtok with _ | t <;>
    by_cases h2 : 400 ≤ (server 1).status <;>
    by_cases h3 : 400 ≤ (server 0).status <;>
    simp only [h1, h2, h3, if_true, if_false, if_pos, if_neg,
      not_false_eq_true, List.length_cons, List.length_nil] <;>
    simp_all

/-- Witness for C3: a stub that answers 401 to every request, with a
succeeding refresh, yields a failed bulk and history fetch after exactly
two requests and one refresh. -/
theorem c3_single_refresh_single_retry_witness :
    (get_quotes_bulk (fun _ => ⟨401, []⟩) "t0" (some "t1") ["AAPL"]).result = [] ∧
    (get_quotes_bulk (fun _ => ⟨401, []⟩) "t0" (some "t1") ["AAPL"]).sent.length = 2 ∧
    (get_quotes_bulk (fun _ => ⟨401, []⟩) "t0" (some "t1") ["AAPL"]).refreshes = 1 ∧
    (get_price_history (fun _ => ⟨401, []⟩) "t0" (some "t1") "AAPL" "day" 1 "minute" 1).result = none ∧
    (get_price_history (fun _ => ⟨401, []⟩) "t0" (some "t1") "AAPL" "day" 1 "minute" 1).sent.length = 2 ∧
    (get_price_history (fun _ => ⟨401, []⟩) "t0" (some "t1") "AAPL" "day" 1 "minute" 1).refreshes = 1 :=
  (c3_single_refresh_single_retry (fun _ => ⟨401, []⟩) "t0" (some "t1")
    "AAPL" "day" "minute" 1 1 ["AAPL"]).2.2.2.2 "t1" rfl rfl (by decide)

/-- Claim C4 (code bug).  On a 2xx token response whose body lacks
`access_token`, `SchwabAPIClient.refresh_access_token` stores `None` as
the access token yet returns `True` (reports success), and
`exchange_code_for_tokens` raises an uncaught `KeyError` instead of
failing with diagnostics. -/
theorem c4_malformed_token_response :
    refresh_access_token
        ⟨"id", "sec", some (JVal.str "oldacc"), some (JVal.str "oldref")⟩
        ⟨200, [("expires_in", JVal.num 1800)]⟩ =
      (true, ⟨"id", "sec", none, some (JVal.str "oldref")⟩) ∧
    exchange_code_for_tokens ⟨200, [("expires_in", JVal.num 1800)]⟩ =
      ExchangeResult.keyError "access_token" :=
  ⟨rfl, rfl⟩

/-- Claim C5 (confirmed).  A successful refresh whose response body omits
`refresh_token` leaves the stored refresh token unchanged — in
`SchwabAPIClient.refresh_access_token` the stored `refresh_token` after
the call equals the one held before, and in the `refresh_token.py` script
the value written back is the prior refresh token. -/
theorem c5_refresh_token_retained (st : ClientState) (resp : HttpResponse)
    (tokens : List (String × JVal)) (prior : String)
    (hrt : jfalsy st.refresh_token = false)
    (hok : resp.status < 400)
    (habsent : resp.body.lookup "refresh_token" = none)
    (habsent2 : tokens.lookup "refresh_token" = none) :
    (refresh_access_token st resp).1 = true ∧
    (refresh_access_token st resp).2.refresh_token = st.refresh_token ∧
    script_new_refresh_token tokens prior = JVal.str prior := by
  have h400 : ¬ 400 ≤ resp.status := by omega
  unfold refresh_access_token script_new_refresh_token
  rw [hrt, if_neg h400, habsent, habsent2]
  exact ⟨rfl, rfl, rfl⟩

/-- Witness for C5 at a concrete state and response. -/
theorem c5_refresh_token_retained_witness :
    (refresh_access_token
        ⟨"id", "sec", some (JVal.str "a"), some (JVal.str "r")⟩
        ⟨200, [("access_token", JVal.str "newa")]⟩).1 = true ∧
    (refresh_access_token
        ⟨"id", "sec", some (JVal.str "a"), some (JVal.str "r")⟩
        ⟨200, [("access_token", JVal.str "newa")]⟩).2.refresh_token =
      (⟨"id", "sec", some (JVal.str "a"), some (JVal.str "r")⟩ : ClientState).refresh_token ∧
    script_new_refresh_token [("access_token", JVal.str "newa")] "r" = JVal.str "r" :=
  c5_refresh_token_retained _ _ _ _ rfl (by decide) rfl rfl

/-- Claim C6 (confirmed).  The `.env` rewrite maps each line independently:
the output has the same number of lines, a line starting with neither
`SCHWAB_ACCESS_TOKEN=` nor `SCHWAB_REFRESH_TOKEN=` is written back
unchanged at its original position, and the two token lines are replaced
with the new values. -/
theorem c6_env_rewrite_frame (a r : String) (lines : List String)
    (i : Nat) (line : String) (hline : lines[i]? = some line) :
    (update_env_file a r lines).length = lines.length ∧
    (line.startsWith "SCHWAB_ACCESS_TOKEN=" = false →
      line.startsWith "SCHWAB_REFRESH_TOKEN=" = false →
      (update_env_file a r lines)[i]? = some line) ∧
    (line.startsWith "SCHWAB_ACCESS_TOKEN=" = true →
      (update_env_file a r lines)[i]? =
        some ("SCHWAB_ACCESS_TOKEN=" ++ a ++ "\n")) ∧
    (line.startsWith "SCHWAB_ACCESS_TOKEN=" = false →
      line.startsWith "SCHWAB_REFRESH_TOKEN=" = true →
      (update_env_file a r lines)[i]? =
        some ("SCHWAB_REFRESH_TOKEN=" ++ r ++ "\n")) := by
  unfold update_env_file
  refine ⟨List.length_map _ _, ?_, ?_, ?_⟩
  · intro h1 h2
    simp [List.getElem?_map, hline, h1, h2]
  · intro h1
    simp [List.getElem?_map, hline, h1]
  · intro h1 h2
    simp [List.getElem?_map, hline, h1, h2]

/-- Witness for C6 on a concrete three-line file. -/
theorem c6_env_rewrite_frame_witness :
    (update_env_file "A2" "R2"
        ["OTHER=1\n", "SCHWAB_ACCESS_TOKEN=A1\n", "SCHWAB_REFRESH_TOKEN=R1\n"]).length = 3 ∧
    (update_env_file "A2" "R2"
        ["OTHER=1\n", "SCHWAB_ACCESS_TOKEN=A1\n", "SCHWAB_REFRESH_TOKEN=R1\n"])[0]? =
      some "OTHER=1\n" := by
  have h := c6_env_rewrite_frame "A2" "R2"
    ["OTHER=1\n", "SCHWAB_ACCESS_TOKEN=A1\n", "SCHWAB_REFRESH_TOKEN=R1\n"] 0 "OTHER=1\n" rfl
  exact ⟨h.1, h.2.1 (by decide) (by decide)⟩

/-- Claim C7 (code bug).  For the spec's own test — symbols
`["AAPL", "BAD"]` with the server returning data only for AAPL —
`get_multiple_prices` does return per-symbol entries without throwing and
gives BAD an explicit error entry, but AAPL's entries are all `0` rather
than its price fields: the loop passes `{symbol: quotes[symbol]}` to
`format_quote_for_trading`, which looks for a top-level `"quote"` key,
finds none in that wrapper dict, and returns `{}`, so every price defaults
to `0` even though the response carries `lastPrice = 123`. -/
theorem c7_bulk_prices_all_zero :
    get_multiple_prices ["AAPL", "BAD"]
      [("AAPL", JVal.obj [("quote", JVal.obj
        [("lastPrice", JVal.num 123), ("askPrice", JVal.num 124),
         ("bidPrice", JVal.num 122)])])] =
      [("AAPL_price", JVal.num 0), ("AAPL_bid", JVal.num 0),
       ("AAPL_ask", JVal.num 0),
       ("BAD", JVal.obj [("error", JVal.str "No data available")])] :=
  rfl

/-- Claim C8 (confirmed).  When the server answers 2xx with the quote keyed
by the uppercased symbol it was asked for, `get_quote` on a symbol
containing a lowercase letter returns `None`: the URL carries
`symbol.upper()` but the lookup `data[symbol]` uses the original
string. -/
theorem c8_lowercase_symbol_returns_none (server : Nat → HttpResponse)
    (tok0 : String) (rtok : Option String) (symbol : String) (v : JVal)
    (h2a : 200 ≤ (server 0).status) (h2b : (server 0).status < 300)
    (hbody : (server 0).body = [(pyUpper symbol, v)])
    (hlow : ∃ c ∈ symbol.data, c.isLower = true) :
    (get_quote server tok0 rtok symbol).result = QuoteResult.ret none := by
  have hne : pyUpper symbol ≠ symbol := pyUpper_ne_of_has_lower _ hlow
  have h401 : ¬ (server 0).status = 401 := by omega
  have h400 : ¬ 400 ≤ (server 0).status := by omega
  unfold get_quote
  rw [if_neg h401, if_neg h400]
  simp only [hbody, List.lookup]
  have hbe : (symbol == pyUpper symbol) = false := by
    simp only [beq_eq_false_iff_ne, ne_eq]
    exact fun h => hne h.symm
  rw [hbe]

/-- Witness for C8 at symbol `"aapl"` against a stub returning the quote
under `"AAPL"`. -/
theorem c8_lowercase_symbol_returns_none_witness :
    (get_quote (fun _ => ⟨200, [(pyUpper "aapl", JVal.num 7)]⟩)
      "tok" none "aapl").result = QuoteResult.ret none :=
  c8_lowercase_symbol_returns_none _ _ _ _ _ (by decide) (by decide) rfl
    (by decide)

/-- Claim C9 (confirmed).  `get_market_status` reports `is_open = true`
exactly when the weekday index is below 5 and the time lies between 9:30
and 16:00 inclusive, hour 16 qualifying only at minute 0; and
`market_session` is `"regular_hours"` exactly when `is_open` is true. -/
theorem c9_market_status (w h m : Nat) :
    ((get_market_status w h m).is_open = true ↔
      (w < 5 ∧ (9 < h ∨ (h = 9 ∧ 30 ≤ m)) ∧ (h < 16 ∨ (h = 16 ∧ m = 0)))) ∧
    ((get_market_status w h m).market_session = "regular_hours" ↔
      (get_market_status w h m).is_open = true) := by
  unfold get_market_status
  constructor
  · simp only [Bool.and_eq_true, Bool.or_eq_true, decide_eq_true_eq,
      beq_iff_eq]
    omega
  · by_cases hb : (decide (w < 5) &&
        ((h == 9 && decide (30 ≤ m)) ||
         (decide (9 < h) && decide (h < 16)) ||
         (h == 16 && m == 0))) = true
    · simp [hb]
    · simp only [Bool.not_eq_true] at hb
      simp [hb]

/-- Claim C10 (confirmed).  `format_quote_for_trading` returns the empty
dict on an empty (falsy) input and on any input without a `"quote"` key;
otherwise `buy_price` is `askPrice`, else `lastPrice`, else `0`;
`sell_price` is `bidPrice`, else `lastPrice`, else `0`; and `last_price`,
`high`, `low`, `volume` and `timestamp` default to `0` when their source
field is absent. -/
theorem c10_format_quote (qd q : List (String × JVal))
    (hne : qd ≠ [])
    (hq : qd.lookup "quote" = some (JVal.obj q)) :
    format_quote_for_trading [] = Except.ok [] ∧
    (∀ qd2 : List (String × JVal), qd2.lookup "quote" = none →
      format_quote_for_trading qd2 = Except.ok []) ∧
    format_quote_for_trading qd = Except.ok
      [("buy_price",
        (q.lookup "askPrice").getD ((q.lookup "lastPrice").getD (JVal.num 0))),
       ("sell_price",
        (q.lookup "bidPrice").getD ((q.lookup "lastPrice").getD (JVal.num 0))),
       ("last_price", (q.lookup "lastPrice").getD (JVal.num 0)),
       ("high", (q.lookup "highPrice").getD (JVal.num 0)),
       ("low", (q.lookup "lowPrice").getD (JVal.num 0)),
       ("volume", (q.lookup "totalVolume").getD (JVal.num 0)),
       ("timestamp", (q.lookup "quoteTime").getD (JVal.num 0))] := by
  refine ⟨rfl, ?_, ?_⟩
  · intro qd2 h2
    unfold format_quote_for_trading
    simp [h2]
  · have hemp : qd.isEmpty = false := by
      cases qd with
      | nil => exact absurd rfl hne
      | cons x l => rfl
    unfold format_quote_for_trading
    rw [hemp, hq]
    simp [dictGet]

/-- Witness for C10 at a quote carrying only `bidPrice` and
`lastPrice`. -/
theorem c10_format_quote_witness :
    format_quote_for_trading
        [("quote", JVal.obj [("bidPrice", JVal.num 9), ("lastPrice", JVal.num 10)])] =
      Except.ok
        [("buy_price", JVal.num 10), ("sell_price", JVal.num 9),
         ("last_price", JVal.num 10), ("high", JVal.num 0),
         ("low", JVal.num 0), ("volume", JVal.num 0),
         ("timestamp", JVal.num 0)] :=
  (c10_format_quote
      [("quote", JVal.obj [("bidPrice", JVal.num 9), ("lastPrice", JVal.num 10)])]
      [("bidPrice", JVal.num 9), ("lastPrice", JVal.num 10)]
      (List.cons_ne_nil _ _) rfl).2.2
